import Mathlib

/-!
Verification of the `get_gh_release` tool (Go, `main.go`) via a shallow
embedding.  Every external effect (GitHub API responses, environment
variables, the filesystem) is passed in explicitly as data, and the
control flow of the source is mirrored definition by definition.
-/

namespace GetGhRelease

/-! String helpers mirroring the Go strings package -/

/-- Go `strings.ToLower` (ASCII-faithful; the tool only compares ASCII
names): lowercase every character. -/
def goToLower (s : String) : String := ⟨s.data.map Char.toLower⟩

/-- Whether `sub` is a prefix of `s`, on character lists. -/
def startsWithChars : List Char → List Char → Bool
  | [], _ => true
  | _ :: _, [] => false
  | c :: cs, d :: ds => c = d && startsWithChars cs ds

/-- Whether `sub` occurs as a contiguous sublist of `s`. -/
def hasSubChars (sub : List Char) : List Char → Bool
  | [] => sub.isEmpty
  | c :: rest => startsWithChars sub (c :: rest) || hasSubChars sub rest

/-- Go `strings.Contains s sub`. -/
def goContains (s sub : String) : Bool := hasSubChars sub.toList s.toList

/-! Data model, mirroring the API client record types and the candidate struct -/

/-- A release asset: display name, browser download URL, numeric id. -/
structure ReleaseAsset where
  name : String
  browserDownloadURL : String
  id : Int
deriving Repr, DecidableEq

/-- A repository release: tag name and its list of assets. -/
structure RepositoryRelease where
  tagName : String
  assets : List ReleaseAsset
deriving Repr, DecidableEq

/-- What the GitHub API would answer for one repository: its name, its
owner login, the result of `GetLatestRelease`, and the result of
`ListReleases`.  An `Except.error` models the API call failing (a 404 for
a repository without releases included). -/
structure RepoData where
  name : String
  ownerLogin : String
  latestRelease : Except String RepositoryRelease
  releasesList : Except String (List RepositoryRelease)

/-- Struct releaseCandidate from main.go. -/
structure releaseCandidate where
  RepoOwner : String
  RepoName : String
  AssetName : String
  DownloadURL : String
  AssetID : Int
deriving Repr, DecidableEq

/-! Token resolution, from getToken in main.go lines 102-114 -/

/-- Constant staticToken from main.go line 20. -/
def staticToken : String := ""

/-- Function getToken from main.go: flag, then `GH_TOKEN` environment variable,
then the compiled-in constant, else empty. -/
def getToken (tokenFlag ghTokenEnv : String) : String :=
  if tokenFlag != "" then tokenFlag
  else if ghTokenEnv != "" then ghTokenEnv
  else if staticToken != "" then staticToken
  else ""

/-! Platform verification, from main.go lines 55-61 -/

/-- The condition of the platform check in `main`:
`platformOS != "linux" || (platformArch != "amd64" && platformArch != "arm64")`. -/
def platformRejected (platformOS platformArch : String) : Bool :=
  (platformOS != "linux") || ((platformArch != "amd64") && (platformArch != "arm64"))

/-- The message printed to stderr when the platform check fails. -/
def platformErrMsg (platformOS platformArch : String) : String :=
  "This program is designed to run only on linux/amd64 or linux/arm64. Detected: "
    ++ platformOS ++ "/" ++ platformArch

/-! Candidate finder, from findReleaseCandidates in main.go lines 117-212 -/

/-- The asset test of the inner loop (`main.go` lines 196-197): the
lowercased asset name contains both the OS string and the arch string. -/
def assetMatches (os arch : String) (a : ReleaseAsset) : Bool :=
  let assetName := goToLower a.name
  goContains assetName os && goContains assetName arch

/-- The asset scan (`main.go` lines 195-208): first matching asset wins,
`break` skips the rest. -/
def findAsset (os arch : String) : List ReleaseAsset → Option ReleaseAsset
  | [] => none
  | a :: rest => if assetMatches os arch a then some a else findAsset os arch rest

/-- The release scan of the version-pattern branch (`main.go` lines
183-188): first release whose lowercased tag contains the pattern. -/
def findMatchingRelease (versionPattern : String) : List RepositoryRelease → Option RepositoryRelease
  | [] => none
  | r :: rest =>
    if goContains (goToLower r.tagName) versionPattern then some r
    else findMatchingRelease versionPattern rest

/-- Release resolution for one repository (`main.go` lines 167-192):
latest release when no version pattern, otherwise the first release whose
tag matches; `none` means the repository is skipped (`continue`). -/
def resolveRelease (versionPattern : String) (repo : RepoData) : Option RepositoryRelease :=
  if versionPattern == "" then
    match repo.latestRelease with
    | .ok r => some r
    | .error _ => none
  else
    match repo.releasesList with
    | .error _ => none
    | .ok rs => findMatchingRelease versionPattern rs

/-- The repository-name filter (`main.go` lines 163-165):
`pattern != "" && !strings.Contains(strings.ToLower(repoName), pattern)`. -/
def repoFiltered (pattern repoName : String) : Bool :=
  pattern != "" && !(goContains (goToLower repoName) pattern)

/-- One iteration of the repository loop (`main.go` lines 158-209):
the candidate this repository contributes, if any. -/
def processRepo (pattern versionPattern os arch : String) (repo : RepoData) :
    Option releaseCandidate :=
  if repoFiltered pattern repo.name then none
  else
    match resolveRelease versionPattern repo with
    | none => none
    | some release =>
      match findAsset os arch release.assets with
      | none => none
      | some asset =>
        some ⟨repo.ownerLogin, repo.name, asset.name, asset.browserDownloadURL, asset.id⟩

/-- The repository loop: accumulate candidates in repository order. -/
def scanRepos (pattern versionPattern os arch : String) : List RepoData → List releaseCandidate
  | [] => []
  | repo :: rest =>
    match processRepo pattern versionPattern os arch repo with
    | none => scanRepos pattern versionPattern os arch rest
    | some c => c :: scanRepos pattern versionPattern os arch rest

/-- The pagination loop (`main.go` lines 129-139 and 145-155): pages are
fetched in order, appended, and the first failing page aborts the whole
function with its error. -/
def collectPages : List (Except String (List RepoData)) → Except String (List RepoData)
  | [] => .ok []
  | p :: rest =>
    match p with
    | .error e => .error e
    | .ok r =>
      match collectPages rest with
      | .error e => .error e
      | .ok rs => .ok (r ++ rs)

/-- Repository enumeration (`main.go` lines 121-156): in public mode the
user lookup runs first and its failure aborts; then the paged listing. -/
def enumerateRepos (publicFlag : Bool) (userLookup : Except String String)
    (pages : List (Except String (List RepoData))) : Except String (List RepoData) :=
  if publicFlag then
    match userLookup with
    | .error e => .error e
    | .ok _ => collectPages pages
  else
    collectPages pages

/-- Function findReleaseCandidates from main.go: enumerate repositories (an
enumeration failure is returned as an error), then scan them. -/
def findReleaseCandidates (pattern versionPattern os arch : String) (publicFlag : Bool)
    (userLookup : Except String String) (pages : List (Except String (List RepoData))) :
    Except String (List releaseCandidate) :=
  match enumerateRepos publicFlag userLookup pages with
  | .error e => .error e
  | .ok repos => .ok (scanRepos pattern versionPattern os arch repos)

/-! Artifact fetcher, from downloadAndPrepare in main.go lines 214-245 -/

/-- Results the outside world gives the four steps of the fetcher:
opening the asset content stream, `os.Create`, `io.Copy`, `os.Chmod`. -/
structure FetchWorld where
  downloadRes : Except String Unit
  createRes : Except String Unit
  copyRes : Except String Unit
  chmodRes : Except String Unit

/-- The file (if any) left on disk by the fetcher: its name, whether the
whole stream was copied into it, and its permission bits. -/
structure FileRecord where
  name : String
  complete : Bool
  mode : Nat
deriving Repr, DecidableEq

/-- Permission bits requested by `os.Create` (0666: no execute bits). -/
def createdMode : Nat := 0o666

/-- Permission bits set by the final `os.Chmod` (0755). -/
def execMode : Nat := 0o755

/-- Result of running the fetcher: the returned error (if any), the file
left on disk, and the lines it printed to stdout. -/
structure FetchOutcome where
  result : Except String Unit
  file : Option FileRecord
  stdoutLines : List String
deriving Repr

/-- Function downloadAndPrepare from main.go: four sequential steps, each
failure wrapped with its own context and returned at once, no cleanup. -/
def downloadAndPrepare (w : FetchWorld) (c : releaseCandidate) : FetchOutcome :=
  match w.downloadRes with
  | .error e => ⟨.error ("could not download asset content: " ++ e), none, []⟩
  | .ok _ =>
    match w.createRes with
    | .error e => ⟨.error ("could not create file " ++ c.AssetName ++ ": " ++ e), none, []⟩
    | .ok _ =>
      match w.copyRes with
      | .error e =>
        ⟨.error ("could not write to file: " ++ e), some ⟨c.AssetName, false, createdMode⟩, []⟩
      | .ok _ =>
        match w.chmodRes with
        | .error e =>
          ⟨.error ("could not make file executable: " ++ e),
            some ⟨c.AssetName, true, createdMode⟩, ["downloaded"]⟩
        | .ok _ =>
          ⟨.ok (), some ⟨c.AssetName, true, execMode⟩, ["downloaded", "made executable"]⟩

/-! Orchestration, from main in main.go lines 31-100 -/

/-- Message of `main.go` line 51. -/
def tokenNotFoundMsg : String :=
  "GitHub token not found. Provide one via -token flag or GH_TOKEN env var."

/-- Message of `main.go` line 85. -/
def noMatchMsg : String := "No matching release artifacts found for your platform."

/-- The line owner/repo: assetName, main.go lines 88 and 97. -/
def candidateLine (c : releaseCandidate) : String :=
  c.RepoOwner ++ "/" ++ c.RepoName ++ ": " ++ c.AssetName

/-- Observable result of a run: stdout lines, stderr lines, exit code,
whether any GitHub API call was made, whether the fetcher
(`downloadAndPrepare`) was invoked, and the file left on disk. -/
structure ProgState where
  stdoutLines : List String
  stderrLines : List String
  exitCode : Nat
  apiCalled : Bool
  fetcherInvoked : Bool
  fileWritten : Option FileRecord
deriving Repr

/-- The switch on the number of candidates (`main.go` lines 82-99). -/
def dispatchCandidates (fetch : FetchWorld) (candidates : List releaseCandidate) : ProgState :=
  match candidates with
  | [] => ⟨[noMatchMsg], [], 0, true, false, none⟩
  | [c] =>
    let o := downloadAndPrepare fetch c
    match o.result with
    | .ok _ => ⟨candidateLine c :: o.stdoutLines, [], 0, true, true, o.file⟩
    | .error e =>
      ⟨candidateLine c :: (o.stdoutLines ++ ["failed"]),
        ["Error downloading and preparing artifact: " ++ e], 1, true, true, o.file⟩
  | cs => ⟨cs.map candidateLine, [], 0, true, false, none⟩

/-- Everything the outside world feeds one run of the program. -/
structure World where
  tokenFlag : String
  ghTokenEnv : String
  goos : String
  goarch : String
  publicFlag : Bool
  args : List String
  userLookup : Except String String
  pages : List (Except String (List RepoData))
  fetch : FetchWorld

/-- Function main from main.go: argument lowering, token acquisition, platform
verification, candidate finding, then the switch on candidates. -/
def mainRun (w : World) : ProgState :=
  let repoPattern := match w.args with | [] => "" | a :: _ => goToLower a
  let versionPattern := match w.args with | _ :: b :: _ => goToLower b | _ => ""
  let token := getToken w.tokenFlag w.ghTokenEnv
  if token == "" then
    ⟨[tokenNotFoundMsg], [], 0, false, false, none⟩
  else if platformRejected w.goos w.goarch then
    ⟨[], [platformErrMsg w.goos w.goarch], 1, false, false, none⟩
  else
    match findReleaseCandidates repoPattern versionPattern w.goos w.goarch w.publicFlag
        w.userLookup w.pages with
    | .error e => ⟨[], ["Error finding releases: " ++ e], 1, true, false, none⟩
    | .ok candidates => dispatchCandidates w.fetch candidates

/-! Helper lemmas -/

/-- The asset scan returns the head of the suffix starting at the first
matching asset. -/
theorem findAsset_first_of_split (os arch : String) (pre post : List ReleaseAsset)
    (a : ReleaseAsset) (ha : assetMatches os arch a = true)
    (hpre : ∀ b ∈ pre, assetMatches os arch b = false) :
    findAsset os arch (pre ++ a :: post) = some a := by
  induction pre with
  | nil => simp [findAsset, ha]
  | cons b bs ih =>
    have hb : assetMatches os arch b = false := hpre b (by simp)
    simpa [findAsset, hb] using ih (fun x hx => hpre x (by simp [hx]))

/-- The release scan returns the head of the suffix starting at the first
release whose lowercased tag contains the pattern. -/
theorem findMatchingRelease_first_of_split (vp : String) (pre post : List RepositoryRelease)
    (r : RepositoryRelease) (hr : goContains (goToLower r.tagName) vp = true)
    (hpre : ∀ x ∈ pre, goContains (goToLower x.tagName) vp = false) :
    findMatchingRelease vp (pre ++ r :: post) = some r := by
  induction pre with
  | nil => simp [findMatchingRelease, hr]
  | cons b bs ih =>
    have hb : goContains (goToLower b.tagName) vp = false := hpre b (by simp)
    simpa [findMatchingRelease, hb] using ih (fun x hx => hpre x (by simp [hx]))

/-- When no release tag matches, the release scan returns nothing. -/
theorem findMatchingRelease_eq_none (vp : String) (rs : List RepositoryRelease)
    (h : ∀ x ∈ rs, goContains (goToLower x.tagName) vp = false) :
    findMatchingRelease vp rs = none := by
  induction rs with
  | nil => rfl
  | cons b bs ih =>
    have hb : goContains (goToLower b.tagName) vp = false := h b (by simp)
    simpa [findMatchingRelease, hb] using ih (fun x hx => h x (by simp [hx]))

/-! Claim theorems -/

/-- C1: the candidate finder scans a release's assets in listed order and
selects the first asset whose lowercased name contains both the target OS
and architecture strings; later assets (the arbitrary `post`) are ignored,
and each repository contributes at most one candidate to the scan. -/
theorem C1_first_matching_asset_single_candidate (os arch : String)
    (pre post : List ReleaseAsset) (a : ReleaseAsset)
    (ha : assetMatches os arch a = true)
    (hpre : ∀ b ∈ pre, assetMatches os arch b = false) :
    findAsset os arch (pre ++ a :: post) = some a ∧
    ∀ pattern versionPattern (repo : RepoData) (rest : List RepoData),
      (scanRepos pattern versionPattern os arch (repo :: rest)).length ≤
        (scanRepos pattern versionPattern os arch rest).length + 1 := by
  refine ⟨findAsset_first_of_split os arch pre post a ha hpre, ?_⟩
  intro pattern versionPattern repo rest
  cases h : processRepo pattern versionPattern os arch repo <;> simp [scanRepos, h]

/-- C1 witness: with one non-matching asset before and one matching asset
after the first match, the first match is selected and the repository
contributes one candidate. -/
theorem C1_witness :
    findAsset "linux" "amd64"
        ([⟨"tool-windows-amd64.exe", "u0", 10⟩] ++
          ⟨"tool-linux-amd64", "u1", 11⟩ :: [⟨"alt-linux-amd64", "u2", 12⟩]) =
      some ⟨"tool-linux-amd64", "u1", 11⟩ := by
  have h := C1_first_matching_asset_single_candidate "linux" "amd64"
    [⟨"tool-windows-amd64.exe", "u0", 10⟩] [⟨"alt-linux-amd64", "u2", 12⟩]
    ⟨"tool-linux-amd64", "u1", 11⟩ (by decide) (by decide)
  exact h.1

/-- C2 counterexample: the claim says an asset is selected iff its
lowercased name contains both substrings; here the second asset contains
both substrings yet is not the selected candidate (first match wins). -/
theorem C2_counterexample :
    assetMatches "linux" "amd64" ⟨"tool2-linux-amd64", "u2", 2⟩ = true ∧
    (⟨"tool2-linux-amd64", "u2", 2⟩ : ReleaseAsset) ∈
      [(⟨"tool1-linux-amd64", "u1", 1⟩ : ReleaseAsset), ⟨"tool2-linux-amd64", "u2", 2⟩] ∧
    findAsset "linux" "amd64"
        [⟨"tool1-linux-amd64", "u1", 1⟩, ⟨"tool2-linux-amd64", "u2", 2⟩] ≠
      some ⟨"tool2-linux-amd64", "u2", 2⟩ := by decide

/-- C2 amended: an asset is selected as the candidate of the release scan
if and only if its lowercased name contains both substrings AND every
asset listed before it fails that test (so non-matching assets are never
selected, and when some asset matches, exactly the first matching one is
selected). -/
theorem C2_selected_iff_first_match (os arch : String) (assets : List ReleaseAsset)
    (a : ReleaseAsset) :
    findAsset os arch assets = some a ↔
      assetMatches os arch a = true ∧
      ∃ pre post, assets = pre ++ a :: post ∧
        ∀ b ∈ pre, assetMatches os arch b = false := by
  induction assets with
  | nil =>
    constructor
    · intro h; simp [findAsset] at h
    · rintro ⟨-, pre, post, heq, -⟩
      exact absurd heq (by simp)
  | cons b bs ih =>
    by_cases hb : assetMatches os arch b = true
    · rw [show findAsset os arch (b :: bs) = some b from by simp [findAsset, hb]]
      constructor
      · intro h
        have hab : b = a := by injection h
        subst hab
        exact ⟨hb, [], bs, rfl, by simp⟩
      · rintro ⟨ha, pre, post, heq, hpre⟩
        cases pre with
        | nil =>
          simp only [List.nil_append, List.cons.injEq] at heq
          rw [heq.1]
        | cons c cs =>
          simp only [List.cons_append, List.cons.injEq] at heq
          have hc : assetMatches os arch c = false := hpre c (by simp)
          rw [heq.1, hc] at hb
          cases hb
    · have hb' : assetMatches os arch b = false := by
        cases h : assetMatches os arch b
        · rfl
        · exact absurd h hb
      rw [show findAsset os arch (b :: bs) = findAsset os arch bs from by
        simp [findAsset, hb']]
      rw [ih]
      constructor
      · rintro ⟨ha, pre, post, heq, hpre⟩
        refine ⟨ha, b :: pre, post, by simp [heq], ?_⟩
        intro x hx
        rcases List.mem_cons.mp hx with h | h
        · rw [h]; exact hb'
        · exact hpre x h
      · rintro ⟨ha, pre, post, heq, hpre⟩
        cases pre with
        | nil =>
          simp only [List.nil_append, List.cons.injEq] at heq
          rw [heq.1] at hb'
          rw [ha] at hb'
          cases hb'
        | cons c cs =>
          simp only [List.cons_append, List.cons.injEq] at heq
          exact ⟨ha, cs, post, heq.2, fun x hx => hpre x (by simp [hx])⟩

/-- C3: the fetcher is invoked if and only if the finder produced exactly
one candidate; with zero candidates the no-match message is printed and no
file is written; with two or more candidates one line per candidate
(owner/repo: assetName) is printed in discovery order, no file is written
and the fetcher is not invoked. -/
theorem C3_dispatch_on_candidate_count (fetch : FetchWorld)
    (candidates : List releaseCandidate) :
    ((dispatchCandidates fetch candidates).fetcherInvoked = true ↔ candidates.length = 1) ∧
    (candidates = [] →
      dispatchCandidates fetch candidates = ⟨[noMatchMsg], [], 0, true, false, none⟩) ∧
    (2 ≤ candidates.length →
      (dispatchCandidates fetch candidates).stdoutLines = candidates.map candidateLine ∧
      (dispatchCandidates fetch candidates).fileWritten = none ∧
      (dispatchCandidates fetch candidates).fetcherInvoked = false) := by
  rcases candidates with _ | ⟨a, _ | ⟨b, tl⟩⟩
  · refine ⟨?_, ?_, ?_⟩
    · simp [dispatchCandidates]
    · intro _
      rfl
    · intro h
      simp at h
  · refine ⟨?_, ?_, ?_⟩
    · cases h : (downloadAndPrepare fetch a).result with
      | ok u => simp [dispatchCandidates, h]
      | error e => simp [dispatchCandidates, h]
    · intro h
      simp at h
    · intro h
      simp at h
  · refine ⟨?_, ?_, ?_⟩
    · simp [dispatchCandidates]
    · intro h
      simp at h
    · intro _
      exact ⟨rfl, rfl, rfl⟩

/-- C3 witness: with two concrete candidates the fetcher is not invoked,
both candidate lines are printed in order, and no file is written. -/
theorem C3_witness :
    (dispatchCandidates ⟨.ok (), .ok (), .ok (), .ok ()⟩
        [⟨"o1", "r1", "a1-linux-amd64", "u1", 1⟩, ⟨"o2", "r2", "a2-linux-amd64", "u2", 2⟩]).stdoutLines =
      ["o1/r1: a1-linux-amd64", "o2/r2: a2-linux-amd64"] ∧
    (dispatchCandidates ⟨.ok (), .ok (), .ok (), .ok ()⟩
        [⟨"o1", "r1", "a1-linux-amd64", "u1", 1⟩, ⟨"o2", "r2", "a2-linux-amd64", "u2", 2⟩]).fileWritten =
      none ∧
    (dispatchCandidates ⟨.ok (), .ok (), .ok (), .ok ()⟩
        [⟨"o1", "r1", "a1-linux-amd64", "u1", 1⟩, ⟨"o2", "r2", "a2-linux-amd64", "u2", 2⟩]).fetcherInvoked =
      false := by
  have h := (C3_dispatch_on_candidate_count ⟨.ok (), .ok (), .ok (), .ok ()⟩
    [⟨"o1", "r1", "a1-linux-amd64", "u1", 1⟩, ⟨"o2", "r2", "a2-linux-amd64", "u2", 2⟩]).2.2
    (by decide)
  exact ⟨by rw [h.1]; rfl, h.2.1, h.2.2⟩

/-- C4: release resolution per repository.  Without a version pattern the
latest release is used and its lookup error means the repository is
skipped; with a version pattern the first release whose lowercased tag
contains the pattern is picked, and the repository is skipped when the
listing fails or no tag matches.  A skipped resolution contributes no
candidate. -/
theorem C4_release_resolution (repo : RepoData) :
    (∀ r, repo.latestRelease = .ok r → resolveRelease "" repo = some r) ∧
    (∀ e, repo.latestRelease = .error e → resolveRelease "" repo = none) ∧
    (∀ versionPattern, versionPattern ≠ "" →
      (∀ e, repo.releasesList = .error e → resolveRelease versionPattern repo = none) ∧
      (∀ pre r post, repo.releasesList = .ok (pre ++ r :: post) →
        goContains (goToLower r.tagName) versionPattern = true →
        (∀ x ∈ pre, goContains (goToLower x.tagName) versionPattern = false) →
        resolveRelease versionPattern repo = some r) ∧
      (∀ rs, repo.releasesList = .ok rs →
        (∀ x ∈ rs, goContains (goToLower x.tagName) versionPattern = false) →
        resolveRelease versionPattern repo = none)) ∧
    (∀ pattern versionPattern os arch, resolveRelease versionPattern repo = none →
      processRepo pattern versionPattern os arch repo = none) := by
  refine ⟨?_, ?_, ?_, ?_⟩
  · intro r h; simp [resolveRelease, h]
  · intro e h; simp [resolveRelease, h]
  · intro versionPattern hvp
    have hbeq : (versionPattern == "") = false := by
      cases h : versionPattern == ""
      · rfl
      · exact absurd (by simpa using h) hvp
    refine ⟨?_, ?_, ?_⟩
    · intro e h; simp [resolveRelease, hbeq, h]
    · intro pre r post h hr hpre
      have hres : resolveRelease versionPattern repo =
          findMatchingRelease versionPattern (pre ++ r :: post) := by
        simp [resolveRelease, hbeq, h]
      rw [hres]
      exact findMatchingRelease_first_of_split versionPattern pre post r hr hpre
    · intro rs h hall
      have hres : resolveRelease versionPattern repo =
          findMatchingRelease versionPattern rs := by
        simp [resolveRelease, hbeq, h]
      rw [hres]
      exact findMatchingRelease_eq_none versionPattern rs hall
  · intro pattern versionPattern os arch h
    simp [processRepo, h]

/-- C4 witness: a failing latest-release lookup resolves to no release,
and with a version pattern the first release whose lowercased tag contains
the pattern is picked; the failed resolution contributes no candidate. -/
theorem C4_witness :
    resolveRelease "" ⟨"proj", "me", .error "404 Not Found", .ok []⟩ = none ∧
    resolveRelease "v1" ⟨"proj", "me", .error "x",
        .ok ([⟨"V2.0", []⟩] ++ ⟨"V1.0", []⟩ :: [])⟩ = some ⟨"V1.0", []⟩ ∧
    processRepo "" "" "linux" "amd64" ⟨"proj", "me", .error "404 Not Found", .ok []⟩ = none := by
  have h1 := (C4_release_resolution ⟨"proj", "me", .error "404 Not Found", .ok []⟩).2.1
    "404 Not Found" rfl
  have h2 := ((C4_release_resolution ⟨"proj", "me", .error "x",
      .ok ([⟨"V2.0", []⟩] ++ ⟨"V1.0", []⟩ :: [])⟩).2.2.1 "v1" (by decide)).2.1
    [⟨"V2.0", []⟩] ⟨"V1.0", []⟩ [] rfl (by decide) (by decide)
  have h3 := (C4_release_resolution ⟨"proj", "me", .error "404 Not Found", .ok []⟩).2.2.2
    "" "" "linux" "amd64" h1
  exact ⟨h1, h2, h3⟩

/-- C5 counterexample: on an unsupported platform (darwin/amd64) but with
no token available, the run exits with status 0 and prints nothing to the
error stream, so the claim that an unsupported platform always causes a
platform error and a nonzero exit is false as stated. -/
theorem C5_counterexample :
    platformRejected "darwin" "amd64" = true ∧
    (mainRun ⟨"", "", "darwin", "amd64", false, [], .ok "u", [],
        ⟨.ok (), .ok (), .ok (), .ok ()⟩⟩).exitCode = 0 ∧
    (mainRun ⟨"", "", "darwin", "amd64", false, [], .ok "u", [],
        ⟨.ok (), .ok (), .ok (), .ok ()⟩⟩).stderrLines = [] := by
  refine ⟨by decide, ?_, ?_⟩ <;> rfl

/-- C5 amended: whenever the token resolves to a non-empty string and the
host platform is not linux/amd64 or linux/arm64, the program prints the
platform error naming the detected OS and architecture to stderr, exits
with status 1, makes no API call (so no repository enumeration), does not
invoke the fetcher and writes no file. -/
theorem C5_platform_gate (w : World)
    (htok : getToken w.tokenFlag w.ghTokenEnv ≠ "")
    (hplat : platformRejected w.goos w.goarch = true) :
    mainRun w = ⟨[], [platformErrMsg w.goos w.goarch], 1, false, false, none⟩ := by
  have h1 : (getToken w.tokenFlag w.ghTokenEnv == "") = false := by
    cases h : getToken w.tokenFlag w.ghTokenEnv == ""
    · rfl
    · exact absurd (by simpa using h) htok
  simp [mainRun, h1, hplat]

/-- C5 witness: with a token given by flag and a darwin/amd64 host, the
run prints exactly the platform error and exits 1. -/
theorem C5_witness :
    mainRun ⟨"tok", "", "darwin", "amd64", false, [], .ok "u", [],
        ⟨.ok (), .ok (), .ok (), .ok ()⟩⟩ =
      ⟨[], [platformErrMsg "darwin" "amd64"], 1, false, false, none⟩ :=
  C5_platform_gate ⟨"tok", "", "darwin", "amd64", false, [], .ok "u", [],
    ⟨.ok (), .ok (), .ok (), .ok ()⟩⟩ (by decide) (by decide)

/-- C6: token resolution returns the first non-empty value among the flag,
the GH_TOKEN environment variable and the compiled-in constant, else the
empty string; and when it is empty the program stops with the message on
stdout and makes no API call. -/
theorem C6_token_resolution_order (tokenFlag ghTokenEnv : String) :
    getToken tokenFlag ghTokenEnv =
      (if tokenFlag ≠ "" then tokenFlag
       else if ghTokenEnv ≠ "" then ghTokenEnv
       else if staticToken ≠ "" then staticToken
       else "") ∧
    (∀ w : World, getToken w.tokenFlag w.ghTokenEnv = "" →
      (mainRun w).stdoutLines = [tokenNotFoundMsg] ∧ (mainRun w).apiCalled = false ∧
      (mainRun w).fetcherInvoked = false) := by
  constructor
  · simp only [getToken, ne_eq, bne_iff_ne]
  · intro w h
    have hb : (getToken w.tokenFlag w.ghTokenEnv == "") = true := by
      simpa using h
    refine ⟨?_, ?_, ?_⟩ <;> simp [mainRun, hb]

/-- C6 witness: the flag wins over the environment variable, and with both
empty the resolution is empty and the run stops with the message, making
no API call. -/
theorem C6_witness :
    getToken "flagtok" "envtok" = "flagtok" ∧
    getToken "" "" = "" ∧
    (mainRun ⟨"", "", "linux", "amd64", false, [], .ok "u", [],
        ⟨.ok (), .ok (), .ok (), .ok ()⟩⟩).stdoutLines = [tokenNotFoundMsg] ∧
    (mainRun ⟨"", "", "linux", "amd64", false, [], .ok "u", [],
        ⟨.ok (), .ok (), .ok (), .ok ()⟩⟩).apiCalled = false := by
  have h1 := (C6_token_resolution_order "flagtok" "envtok").1
  have h2 := (C6_token_resolution_order "" "").1
  have h3 := (C6_token_resolution_order "" "").2
    ⟨"", "", "linux", "amd64", false, [], .ok "u", [], ⟨.ok (), .ok (), .ok (), .ok ()⟩⟩
    (by decide)
  exact ⟨by simpa using h1, by simpa using h2, h3.1, h3.2.1⟩

/-- C7: the fetcher is four sequential steps (open content stream, create
the file named exactly as the asset, copy the stream, chmod 0755); each
failing step returns its own contextual error and aborts the rest with no
cleanup.  A copy failure leaves a partially written file with the
non-executable creation mode on disk, a chmod failure leaves the fully
written file non-executable, and on success the file carries mode 0755. -/
theorem C7_fetcher_steps (w : FetchWorld) (c : releaseCandidate) :
    (∀ e, w.downloadRes = .error e →
      downloadAndPrepare w c =
        ⟨.error ("could not download asset content: " ++ e), none, []⟩) ∧
    (∀ e, w.downloadRes = .ok () → w.createRes = .error e →
      downloadAndPrepare w c =
        ⟨.error ("could not create file " ++ c.AssetName ++ ": " ++ e), none, []⟩) ∧
    (∀ e, w.downloadRes = .ok () → w.createRes = .ok () → w.copyRes = .error e →
      downloadAndPrepare w c = ⟨.error ("could not write to file: " ++ e),
        some ⟨c.AssetName, false, createdMode⟩, []⟩) ∧
    (∀ e, w.downloadRes = .ok () → w.createRes = .ok () → w.copyRes = .ok () →
      w.chmodRes = .error e →
      downloadAndPrepare w c = ⟨.error ("could not make file executable: " ++ e),
        some ⟨c.AssetName, true, createdMode⟩, ["downloaded"]⟩) ∧
    (w.downloadRes = .ok () → w.createRes = .ok () → w.copyRes = .ok () →
      w.chmodRes = .ok () →
      downloadAndPrepare w c = ⟨.ok (), some ⟨c.AssetName, true, execMode⟩,
        ["downloaded", "made executable"]⟩) ∧
    createdMode &&& 0o111 = 0 ∧ execMode = 0o755 := by
  refine ⟨?_, ?_, ?_, ?_, ?_, by decide, rfl⟩
  · intro e h1
    simp [downloadAndPrepare, h1]
  · intro e h1 h2
    simp [downloadAndPrepare, h1, h2]
  · intro e h1 h2 h3
    simp [downloadAndPrepare, h1, h2, h3]
  · intro e h1 h2 h3 h4
    simp [downloadAndPrepare, h1, h2, h3, h4]
  · intro h1 h2 h3 h4
    simp [downloadAndPrepare, h1, h2, h3, h4]

/-- C7 witness: a failing copy step aborts with the write error and leaves
the partially written, non-executable file named after the asset. -/
theorem C7_witness :
    downloadAndPrepare ⟨.ok (), .ok (), .error "disk full", .ok ()⟩
        ⟨"o", "r", "tool-linux-amd64", "u", 1⟩ =
      ⟨.error ("could not write to file: " ++ "disk full"),
        some ⟨"tool-linux-amd64", false, createdMode⟩, []⟩ :=
  (C7_fetcher_steps ⟨.ok (), .ok (), .error "disk full", .ok ()⟩
    ⟨"o", "r", "tool-linux-amd64", "u", 1⟩).2.2.1 "disk full" rfl rfl rfl

/-- C8: the candidate finder returns an error exactly when repository
enumeration (user lookup or repository listing) fails; once enumeration
succeeds the scan is total, a repository whose release lookup failed is
skipped without aborting the scan, and it contributes no candidate. -/
theorem C8_errors_only_from_enumeration (pattern versionPattern os arch : String)
    (publicFlag : Bool) (userLookup : Except String String)
    (pages : List (Except String (List RepoData))) :
    (∀ e, findReleaseCandidates pattern versionPattern os arch publicFlag userLookup pages =
        .error e ↔ enumerateRepos publicFlag userLookup pages = .error e) ∧
    (∀ repos, enumerateRepos publicFlag userLookup pages = .ok repos →
      findReleaseCandidates pattern versionPattern os arch publicFlag userLookup pages =
        .ok (scanRepos pattern versionPattern os arch repos)) ∧
    (∀ (repo : RepoData) (rest : List RepoData),
      processRepo pattern versionPattern os arch repo = none →
      scanRepos pattern versionPattern os arch (repo :: rest) =
        scanRepos pattern versionPattern os arch rest) ∧
    (∀ (repo : RepoData) e, versionPattern = "" → repo.latestRelease = .error e →
      processRepo pattern versionPattern os arch repo = none) ∧
    (∀ (repo : RepoData) e, versionPattern ≠ "" → repo.releasesList = .error e →
      processRepo pattern versionPattern os arch repo = none) := by
  refine ⟨?_, ?_, ?_, ?_, ?_⟩
  · intro e
    cases h : enumerateRepos publicFlag userLookup pages with
    | ok repos => simp [findReleaseCandidates, h]
    | error e2 => simp [findReleaseCandidates, h]
  · intro repos h
    simp [findReleaseCandidates, h]
  · intro repo rest h
    simp [scanRepos, h]
  · intro repo e hvp h
    subst hvp
    have hres : resolveRelease "" repo = none := by
      simp [resolveRelease, h]
    simp [processRepo, hres]
  · intro repo e hvp h
    have hbeq : (versionPattern == "") = false := by
      cases hb : versionPattern == ""
      · rfl
      · exact absurd (by simpa using hb) hvp
    have hres : resolveRelease versionPattern repo = none := by
      simp [resolveRelease, hbeq, h]
    simp [processRepo, hres]

/-- C8 witness: a failing page aborts the finder with that error, while a
failing latest-release lookup only skips its repository and the scan of
the remaining repositories continues. -/
theorem C8_witness :
    findReleaseCandidates "" "" "linux" "amd64" false (.ok "u") [.error "boom"] =
      .error "boom" ∧
    processRepo "" "" "linux" "amd64" ⟨"proj2", "me", .error "404", .ok []⟩ = none ∧
    scanRepos "" "" "linux" "amd64"
        (⟨"proj2", "me", .error "404", .ok []⟩ ::
          [⟨"proj3", "me", .ok ⟨"v1", [⟨"a-linux-amd64", "u", 7⟩]⟩, .ok []⟩]) =
      scanRepos "" "" "linux" "amd64"
        [⟨"proj3", "me", .ok ⟨"v1", [⟨"a-linux-amd64", "u", 7⟩]⟩, .ok []⟩] := by
  have h := C8_errors_only_from_enumeration "" "" "linux" "amd64" false (.ok "u")
    [.error "boom"]
  have h2 := h.2.2.2.1 ⟨"proj2", "me", .error "404", .ok []⟩ "404" rfl rfl
  exact ⟨(h.1 "boom").mpr rfl,
    h2,
    h.2.2.1 ⟨"proj2", "me", .error "404", .ok []⟩
      [⟨"proj3", "me", .ok ⟨"v1", [⟨"a-linux-amd64", "u", 7⟩]⟩, .ok []⟩] h2⟩

/-- C9: a repository is skipped by the name filter exactly when the
pattern is non-empty and the lowercased repository name does not contain
it; an empty pattern filters nothing, and a filtered repository
contributes no candidate. -/
theorem C9_repo_name_filter (pattern : String) (repo : RepoData) :
    (repoFiltered pattern repo.name = true ↔
      pattern ≠ "" ∧ goContains (goToLower repo.name) pattern = false) ∧
    (pattern = "" → repoFiltered pattern repo.name = false) ∧
    (∀ versionPattern os arch, repoFiltered pattern repo.name = true →
      processRepo pattern versionPattern os arch repo = none) := by
  refine ⟨?_, ?_, ?_⟩
  · simp [repoFiltered, Bool.and_eq_true, bne_iff_ne, Bool.not_eq_true']
  · intro h
    subst h
    simp [repoFiltered]
  · intro versionPattern os arch h
    simp [processRepo, h]

/-- C9 witness: with the lowercased pattern of the spec example, a
repository named other is filtered out and contributes no candidate,
while Tool-X passes the filter case-insensitively. -/
theorem C9_witness :
    processRepo "tool-" "" "linux" "amd64" ⟨"other", "me", .ok ⟨"v1", []⟩, .ok []⟩ = none ∧
    repoFiltered "tool-" "Tool-X" = false ∧
    repoFiltered "" "anything" = false := by
  refine ⟨(C9_repo_name_filter "tool-" ⟨"other", "me", .ok ⟨"v1", []⟩, .ok []⟩).2.2
    "" "linux" "amd64" (by decide), by decide, ?_⟩
  exact (C9_repo_name_filter "" ⟨"anything", "me", .ok ⟨"v1", []⟩, .ok []⟩).2.1 rfl

/-- C10: when token resolution yields the empty string (the compiled-in
staticToken being empty in this source), the run prints the missing-token
message to stdout, nothing to stderr, terminates with exit status 0,
makes no API call, does not invoke the fetcher and writes no file — all
independently of the platform, so before the platform gate. -/
theorem C10_empty_token_clean_exit (w : World)
    (h : getToken w.tokenFlag w.ghTokenEnv = "") :
    mainRun w = ⟨[tokenNotFoundMsg], [], 0, false, false, none⟩ ∧ staticToken = "" := by
  have hb : (getToken w.tokenFlag w.ghTokenEnv == "") = true := by simpa using h
  exact ⟨by simp [mainRun, hb], rfl⟩

/-- C10 witness: with no flag and no environment token on an unsupported
platform, the run prints only the missing-token message and exits 0
without reaching the platform gate. -/
theorem C10_witness :
    mainRun ⟨"", "", "darwin", "arm64", true, ["tool-"], .ok "u", [],
        ⟨.ok (), .ok (), .ok (), .ok ()⟩⟩ =
      ⟨[tokenNotFoundMsg], [], 0, false, false, none⟩ ∧ staticToken = "" :=
  C10_empty_token_clean_exit ⟨"", "", "darwin", "arm64", true, ["tool-"], .ok "u", [],
    ⟨.ok (), .ok (), .ok (), .ok ()⟩⟩ (by decide)

end GetGhRelease
